import Mathlib

/-!
# Verification of the MultiSprite demo (src/src/Modulo4/M4Sprites.cpp)

Shallow embedding of the sprite placement logic of `M4Sprites.cpp`:
the `Sprite` class (position / scale / rotation state, its setters, and the
model matrix built inside `Sprite::Draw` from glm translate / rotate / scale
calls), the shared unit quad geometry of `CreateQuadVAO`, the vertex stage of
`vertexShaderSource`, and the control flow of `main`, `CreateShaderProgram`
and `loadTexture`.

Matrices are 4x4 over `ℝ` (the idealisation of the program's `glm::mat4`
float arithmetic); the glm helpers are embedded by their mathematical
semantics: `glm::translate m v = m * T(v)`, `glm::rotate m a (0,0,1) = m *
Rz(a)`, `glm::scale m v = m * S(v)`, all acting by right multiplication.
-/

noncomputable section

open Matrix

/-- 4x4 real matrix, the embedding of `glm::mat4`. -/
abbrev Mat4 := Matrix (Fin 4) (Fin 4) ℝ

/-- 4-component real vector, the embedding of `glm::vec4`. -/
abbrev Vec4 := Fin 4 → ℝ

/-- Homogeneous translation matrix `T(x,y,z)`. -/
def translationMat (x y z : ℝ) : Mat4 :=
  !![1, 0, 0, x;
     0, 1, 0, y;
     0, 0, 1, z;
     0, 0, 0, 1]

/-- Homogeneous rotation matrix about the Z axis by `a` radians
(counter-clockwise), the specialisation of `glm::rotate` to axis `(0,0,1)`. -/
def rotationZMat (a : ℝ) : Mat4 :=
  !![Real.cos a, -Real.sin a, 0, 0;
     Real.sin a,  Real.cos a, 0, 0;
     0, 0, 1, 0;
     0, 0, 0, 1]

/-- Homogeneous scale matrix `S(x,y,z)`. -/
def scaleMat (x y z : ℝ) : Mat4 :=
  !![x, 0, 0, 0;
     0, y, 0, 0;
     0, 0, z, 0;
     0, 0, 0, 1]

/-- `glm::translate(m, vec3(x,y,z))`: post-multiplies `m` by a translation. -/
def glmTranslate (m : Mat4) (x y z : ℝ) : Mat4 := m * translationMat x y z

/-- `glm::rotate(m, a, vec3(0,0,1))`: post-multiplies `m` by a Z rotation. -/
def glmRotateZ (m : Mat4) (a : ℝ) : Mat4 := m * rotationZMat a

/-- `glm::scale(m, vec3(x,y,z))`: post-multiplies `m` by a scale. -/
def glmScale (m : Mat4) (x y z : ℝ) : Mat4 := m * scaleMat x y z

/-- `glm::radians`: degrees to radians. -/
def glmRadians (deg : ℝ) : ℝ := deg * Real.pi / 180

/-- Product of an explicit 4x4 matrix with an explicit 4-vector. -/
theorem mulVec4 (a b c d e f g h i j k l m n o p x y z w : ℝ) :
    (!![a, b, c, d; e, f, g, h; i, j, k, l; m, n, o, p]).mulVec ![x, y, z, w] =
      ![a*x + b*y + c*z + d*w,
        e*x + f*y + g*z + h*w,
        i*x + j*y + k*z + l*w,
        m*x + n*y + o*z + p*w] := by
  funext q
  fin_cases q <;>
    simp [Matrix.mulVec, Matrix.dotProduct, Fin.sum_univ_four]

/-!
## The Sprite class

`class Sprite` of M4Sprites.cpp: three shared GL handles received by the
constructor, plus the placement state `position`, `scale`, `rotation`.
-/

/-- The `Sprite` class state: shared handles `shaderID`, `VAO`, `textureID`
(GLuints, never written after construction) and the placement fields. -/
structure Sprite where
  shaderID : Nat
  VAO : Nat
  textureID : Nat
  position : ℝ × ℝ
  scale : ℝ × ℝ
  rotation : ℝ

/-- The constructor `Sprite(shaderID, quadVAO, textureID)`: stores the three
handles and initialises `position = (0,0)`, `scale = (100,100)`,
`rotation = 0`. -/
def Sprite.make (shaderID quadVAO textureID : Nat) : Sprite :=
  { shaderID := shaderID, VAO := quadVAO, textureID := textureID,
    position := (0, 0), scale := (100, 100), rotation := 0 }

/-- `Sprite::SetPosition(x, y)`: overwrites `position` with `(x, y)`. -/
def Sprite.SetPosition (s : Sprite) (x y : ℝ) : Sprite :=
  { s with position := (x, y) }

/-- `Sprite::SetScale(widthPx, heightPx)`: overwrites `scale`. -/
def Sprite.SetScale (s : Sprite) (widthPx heightPx : ℝ) : Sprite :=
  { s with scale := (widthPx, heightPx) }

/-- `Sprite::SetRotation(angleDegrees)`: overwrites `rotation` (degrees). -/
def Sprite.SetRotation (s : Sprite) (angleDegrees : ℝ) : Sprite :=
  { s with rotation := angleDegrees }

/-- The model matrix computed at the top of `Sprite::Draw`, following the
code line by line: `model = mat4(1); translate(model, position);
translate(model, 0.5*scale); rotate(model, radians(rotation), (0,0,1));
translate(model, -0.5*scale); scale(model, (scale, 1))`. -/
def Sprite.modelMatrix (s : Sprite) : Mat4 :=
  let m0 : Mat4 := 1
  let m1 := glmTranslate m0 s.position.1 s.position.2 0
  let m2 := glmTranslate m1 (0.5 * s.scale.1) (0.5 * s.scale.2) 0
  let m3 := glmRotateZ m2 (glmRadians s.rotation)
  let m4 := glmTranslate m3 (-0.5 * s.scale.1) (-0.5 * s.scale.2) 0
  glmScale m4 s.scale.1 s.scale.2 1

/-!
## The shared quad and the vertex stage
-/

/-- The 4 vertex positions of `quadVertices` in `CreateQuadVAO`, in buffer
order: top-left, bottom-left, top-right, bottom-right of a 1x1 quad centred
at the origin (z = 0 omitted). -/
def quadPos : Fin 4 → ℝ × ℝ :=
  ![(-0.5, 0.5), (-0.5, -0.5), (0.5, 0.5), (0.5, -0.5)]

/-- The 4 texture coordinates (S,T) of `quadVertices`, in buffer order. -/
def quadTex : Fin 4 → ℝ × ℝ :=
  ![(0, 1), (0, 0), (1, 1), (1, 0)]

/-- Vertex `i` of the quad as the homogeneous `vec4(aPos, 1.0)` of the
vertex shader. -/
def vertexVec (i : Fin 4) : Vec4 :=
  ![(quadPos i).1, (quadPos i).2, 0, 1]

/-- `gl_Position` of `vertexShaderSource`:
`uProjection * (uModel * vec4(aPos, 1.0))`. -/
def glPosition (projection model : Mat4) (v : Vec4) : Vec4 :=
  projection.mulVec (model.mulVec v)

/-- Quad corner `i` transformed by the sprite's model matrix alone
(pre-projection model space). -/
def Sprite.modelCorner (s : Sprite) (i : Fin 4) : Vec4 :=
  s.modelMatrix.mulVec (vertexVec i)

/-- Closed form of the model matrix applied to a homogeneous point
`(x, y, 0, 1)`: the sprite maps local `(x,y)` to
`position + 0.5*scale + Rz(radians rotation) * (scale*(x,y) - 0.5*scale)`. -/
theorem Sprite.modelMatrix_mulVec (s : Sprite) (x y : ℝ) :
    s.modelMatrix.mulVec ![x, y, 0, 1] =
      ![s.position.1 + 0.5 * s.scale.1
          + Real.cos (glmRadians s.rotation) * (s.scale.1 * x - 0.5 * s.scale.1)
          - Real.sin (glmRadians s.rotation) * (s.scale.2 * y - 0.5 * s.scale.2),
        s.position.2 + 0.5 * s.scale.2
          + Real.sin (glmRadians s.rotation) * (s.scale.1 * x - 0.5 * s.scale.1)
          + Real.cos (glmRadians s.rotation) * (s.scale.2 * y - 0.5 * s.scale.2),
        0, 1] := by
  simp only [Sprite.modelMatrix, glmTranslate, glmRotateZ, glmScale, Matrix.one_mul,
    translationMat, rotationZMat, scaleMat, ← Matrix.mulVec_mulVec]
  rw [mulVec4, mulVec4, mulVec4, mulVec4, mulVec4]
  funext j
  fin_cases j <;> simp <;> ring

/-!
## Sprites instantiated by main (lines 333-342)
-/

/-- Sprite 1 of `main`: position (50,50), scale 128x128, rotation 0. -/
def mainSprite1 : Sprite :=
  (((Sprite.make 1 2 3).SetPosition 50 50).SetScale 128 128).SetRotation 0

/-- Sprite 2 of `main`: position (300,200), scale 200x100, rotation 45. -/
def mainSprite2 : Sprite :=
  (((Sprite.make 1 2 4).SetPosition 300 200).SetScale 200 100).SetRotation 45

/-- C1: the model matrix of `Sprite::Draw` is the product
`T(position) * T(0.5*scale) * Rz(radians rotation) * T(-0.5*scale) *
S(scale.x, scale.y, 1)` starting from the identity; the quad corners are the
four points (±0.5, ±0.5); and the vertex stage applies
`projection * model` to each homogeneous corner. -/
theorem C1_model_matrix_composition (s : Sprite) (projection : Mat4) :
    s.modelMatrix =
      translationMat s.position.1 s.position.2 0 *
        translationMat (0.5 * s.scale.1) (0.5 * s.scale.2) 0 *
        rotationZMat (glmRadians s.rotation) *
        translationMat (-0.5 * s.scale.1) (-0.5 * s.scale.2) 0 *
        scaleMat s.scale.1 s.scale.2 1 ∧
    (quadPos 0 = (-0.5, 0.5) ∧ quadPos 1 = (-0.5, -0.5) ∧
      quadPos 2 = (0.5, 0.5) ∧ quadPos 3 = (0.5, -0.5)) ∧
    ∀ i : Fin 4, glPosition projection s.modelMatrix (vertexVec i) =
      (projection * s.modelMatrix).mulVec (vertexVec i) := by
  refine ⟨?_, ?_, ?_⟩
  · simp [Sprite.modelMatrix, glmTranslate, glmRotateZ, glmScale, Matrix.one_mul,
      Matrix.mul_assoc]
  · norm_num [quadPos]
  · intro i
    simp [glPosition, Matrix.mulVec_mulVec]

/-- C2: evaluation of the embedded `Sprite::Draw` model matrix at main's
sprite 1 (position (50,50), scale 128x128, rotation 0). The quad is centred
at the origin, so the transformed quad is the rectangle
[-14,114] x [-14,114], not [50,178] x [50,178] as the claim states: the
top-left corner lands at (-14,114) (claim says (50,178)) and the
bottom-right corner at (114,-14) (claim says (178,50)). -/
theorem C2_rect_placement_bug :
    mainSprite1.modelCorner 0 = ![-14, 114, 0, 1] ∧
    mainSprite1.modelCorner 3 = ![114, -14, 0, 1] ∧
    mainSprite1.modelCorner 0 ≠ ![50, 178, 0, 1] ∧
    mainSprite1.modelCorner 3 ≠ ![178, 50, 0, 1] := by
  have h0 : mainSprite1.modelCorner 0 = ![-14, 114, 0, 1] := by
    rw [Sprite.modelCorner,
      show vertexVec 0 = ![-0.5, 0.5, 0, 1] from by norm_num [vertexVec, quadPos],
      Sprite.modelMatrix_mulVec]
    funext j
    fin_cases j <;>
      norm_num [mainSprite1, Sprite.make, Sprite.SetPosition, Sprite.SetScale,
        Sprite.SetRotation, glmRadians]
  have h3 : mainSprite1.modelCorner 3 = ![114, -14, 0, 1] := by
    rw [Sprite.modelCorner,
      show vertexVec 3 = ![0.5, -0.5, 0, 1] from by norm_num [vertexVec, quadPos],
      Sprite.modelMatrix_mulVec]
    funext j
    fin_cases j <;>
      norm_num [mainSprite1, Sprite.make, Sprite.SetPosition, Sprite.SetScale,
        Sprite.SetRotation, glmRadians]
  refine ⟨h0, h3, ?_, ?_⟩
  · rw [h0]
    intro h
    have := congrFun h 0
    norm_num at this
  · rw [h3]
    intro h
    have := congrFun h 0
    norm_num at this

/-- `glm::radians(45) = pi/4`. -/
theorem glmRadians_45 : glmRadians 45 = Real.pi / 4 := by
  rw [glmRadians]; ring

/-- `glm::radians(180) = pi`. -/
theorem glmRadians_180 : glmRadians 180 = Real.pi := by
  rw [glmRadians]; ring

/-- Centroid of the four transformed quad corners of a sprite (x and y
components, in pre-projection model space). -/
def transformedCentroid (s : Sprite) : ℝ × ℝ :=
  ((∑ i : Fin 4, s.modelCorner i 0) / 4, (∑ i : Fin 4, s.modelCorner i 1) / 4)

/-- C3: evaluation of the embedded code at main's sprite 2
(position (300,200), scale 200x100, rotation 45). The rotation pivot of the
code is `position + 0.5*scale` (the quad's top-right corner), not the quad's
centre, so the centroid is not rotation-invariant: at rotation 45 it is
(400 - 25*sqrt 2, 250 - 75*sqrt 2), which differs both from the claimed
(400, 250) and from the rotation-0 centroid (300, 200). -/
theorem C3_centroid_bug :
    transformedCentroid mainSprite2 =
      (400 - 25 * Real.sqrt 2, 250 - 75 * Real.sqrt 2) ∧
    transformedCentroid (mainSprite2.SetRotation 0) = (300, 200) ∧
    transformedCentroid mainSprite2 ≠ (400, 250) ∧
    transformedCentroid mainSprite2 ≠ transformedCentroid (mainSprite2.SetRotation 0) := by
  have hs : (0 : ℝ) < Real.sqrt 2 := Real.sqrt_pos.mpr (by norm_num)
  have h45 : transformedCentroid mainSprite2 =
      (400 - 25 * Real.sqrt 2, 250 - 75 * Real.sqrt 2) := by
    simp only [transformedCentroid, Sprite.modelCorner, vertexVec,
      Sprite.modelMatrix_mulVec, Fin.sum_univ_four, quadPos, mainSprite2,
      Sprite.make, Sprite.SetPosition, Sprite.SetScale, Sprite.SetRotation,
      glmRadians_45, Real.cos_pi_div_four, Real.sin_pi_div_four]
    norm_num [Prod.mk.injEq]
    constructor <;> ring
  have h0 : transformedCentroid (mainSprite2.SetRotation 0) = (300, 200) := by
    simp only [transformedCentroid, Sprite.modelCorner, vertexVec,
      Sprite.modelMatrix_mulVec, Fin.sum_univ_four, quadPos, mainSprite2,
      Sprite.make, Sprite.SetPosition, Sprite.SetScale, Sprite.SetRotation,
      glmRadians, zero_mul, zero_div, Real.cos_zero, Real.sin_zero]
    norm_num [Prod.mk.injEq]
  refine ⟨h45, h0, ?_, ?_⟩
  · rw [h45]
    intro h
    rw [Prod.mk.injEq] at h
    linarith [h.1]
  · rw [h45, h0]
    intro h
    rw [Prod.mk.injEq] at h
    linarith [h.1]

/-- C4: evaluation of the embedded code at a sprite with position (0,0) and
scale 2x2. At rotation 180 the bottom-left corner (index 1) lands at (3,3),
while the diagonally opposite top-right corner (index 2) at rotation 0 sits
at (1,1): rotation by 180 degrees does not map corners to their diagonal
opposites, because the pivot is `position + 0.5*scale`, not the centre. -/
theorem C4_rotation180_bug :
    (((Sprite.make 0 0 0).SetScale 2 2).SetRotation 180).modelCorner 1 = ![3, 3, 0, 1] ∧
    ((Sprite.make 0 0 0).SetScale 2 2).modelCorner 2 = ![1, 1, 0, 1] ∧
    (((Sprite.make 0 0 0).SetScale 2 2).SetRotation 180).modelCorner 1 ≠
      ((Sprite.make 0 0 0).SetScale 2 2).modelCorner 2 := by
  have h180 : (((Sprite.make 0 0 0).SetScale 2 2).SetRotation 180).modelCorner 1 =
      ![3, 3, 0, 1] := by
    rw [Sprite.modelCorner,
      show vertexVec 1 = ![-0.5, -0.5, 0, 1] from by norm_num [vertexVec, quadPos],
      Sprite.modelMatrix_mulVec]
    funext j
    fin_cases j <;>
      norm_num [Sprite.make, Sprite.SetScale, Sprite.SetRotation, glmRadians_180,
        Real.cos_pi, Real.sin_pi]
  have h0 : ((Sprite.make 0 0 0).SetScale 2 2).modelCorner 2 = ![1, 1, 0, 1] := by
    rw [Sprite.modelCorner,
      show vertexVec 2 = ![0.5, 0.5, 0, 1] from by norm_num [vertexVec, quadPos],
      Sprite.modelMatrix_mulVec]
    funext j
    fin_cases j <;>
      norm_num [Sprite.make, Sprite.SetScale, Sprite.SetRotation, glmRadians]
  refine ⟨h180, h0, ?_⟩
  rw [h180, h0]
  intro h
  have := congrFun h 0
  norm_num at this

/-- C5: translation equivariance of the embedded `Sprite::Draw` transform.
Moving the position by (dx,dy) while keeping scale and rotation fixed moves
every transformed quad corner by exactly (dx,dy). -/
theorem C5_translation_equivariance (s : Sprite) (px py dx dy : ℝ) (i : Fin 4) :
    (s.SetPosition (px + dx) (py + dy)).modelCorner i =
      (s.SetPosition px py).modelCorner i + ![dx, dy, 0, 0] := by
  funext j
  simp only [Sprite.modelCorner, vertexVec, Sprite.modelMatrix_mulVec,
    Sprite.SetPosition, Pi.add_apply]
  fin_cases j <;> simp <;> ring

/-!
## Setter call sequences (reachable sprite states)
-/

/-- One mutation of a sprite through its public setters. -/
inductive SpriteCmd where
  | setPosition (x y : ℝ)
  | setScale (w h : ℝ)
  | setRotation (d : ℝ)

/-- Apply one setter call to a sprite. -/
def SpriteCmd.apply (s : Sprite) : SpriteCmd → Sprite
  | .setPosition x y => s.SetPosition x y
  | .setScale w h => s.SetScale w h
  | .setRotation d => s.SetRotation d

/-- Run a sequence of setter calls starting from a sprite. -/
def runCmds (s : Sprite) (cs : List SpriteCmd) : Sprite :=
  cs.foldl SpriteCmd.apply s

/-- A setter call whose `SetScale` arguments, if any, are non-negative. -/
def scaleArgsNonneg : SpriteCmd → Prop
  | .setScale w h => 0 ≤ w ∧ 0 ≤ h
  | _ => True

/-- Running setter calls that never pass a negative scale keeps both scale
components non-negative. -/
theorem runCmds_scale_nonneg (cs : List SpriteCmd) (s : Sprite)
    (hs : 0 ≤ s.scale.1 ∧ 0 ≤ s.scale.2)
    (h : ∀ c ∈ cs, scaleArgsNonneg c) :
    0 ≤ (runCmds s cs).scale.1 ∧ 0 ≤ (runCmds s cs).scale.2 := by
  induction cs generalizing s with
  | nil => exact hs
  | cons c cs ih =>
    rw [runCmds, List.foldl_cons]
    refine ih (SpriteCmd.apply s c) ?_ fun x hx => h x (List.mem_cons_of_mem _ hx)
    have hc := h c (List.mem_cons_self c cs)
    cases c with
    | setPosition x y => exact hs
    | setScale w hgt => exact hc
    | setRotation d => exact hs

/-- C6 counterexample: the state reached from a fresh sprite by the single
call `SetScale(-1, -1)` has a negative scale component, so not every
reachable state has non-negative scale. -/
theorem C6_negative_scale_reachable :
    ¬ (0 ≤ (runCmds (Sprite.make 1 2 3) [SpriteCmd.setScale (-1) (-1)]).scale.1 ∧
       0 ≤ (runCmds (Sprite.make 1 2 3) [SpriteCmd.setScale (-1) (-1)]).scale.2) := by
  norm_num [runCmds, SpriteCmd.apply, Sprite.SetScale, Sprite.make]

/-- C6 (amended): in every state reachable from construction by a sequence
of SetPosition / SetScale / SetRotation calls in which every SetScale call
receives non-negative arguments, both scale components are non-negative.
(`SetScale` itself performs no validation, so negative scales are
reachable.) -/
theorem C6_scale_nonneg_amended (shaderID quadVAO textureID : Nat)
    (cs : List SpriteCmd) (h : ∀ c ∈ cs, scaleArgsNonneg c) :
    0 ≤ (runCmds (Sprite.make shaderID quadVAO textureID) cs).scale.1 ∧
    0 ≤ (runCmds (Sprite.make shaderID quadVAO textureID) cs).scale.2 :=
  runCmds_scale_nonneg cs _ (by norm_num [Sprite.make]) h

/-- C6 witness: the amended invariant instantiated on a concrete call
sequence with non-negative scale arguments. -/
theorem C6_scale_nonneg_witness :
    0 ≤ (runCmds (Sprite.make 1 2 3)
          [SpriteCmd.setPosition 5 6, SpriteCmd.setScale 1 1,
           SpriteCmd.setRotation 90]).scale.1 ∧
    0 ≤ (runCmds (Sprite.make 1 2 3)
          [SpriteCmd.setPosition 5 6, SpriteCmd.setScale 1 1,
           SpriteCmd.setRotation 90]).scale.2 :=
  C6_scale_nonneg_amended 1 2 3 _ (by simp [scaleArgsNonneg])

/-- C7: a freshly constructed sprite has position (0,0), scale (100,100)
and rotation 0; each setter stores exactly its arguments; the rotation is
held in degrees and converted to radians (`d * pi / 180`) only in the model
matrix built by `Draw`. -/
theorem C7_construction_and_setters (shaderID quadVAO textureID : Nat)
    (s : Sprite) (x y w h d : ℝ) :
    (Sprite.make shaderID quadVAO textureID).position = (0, 0) ∧
    (Sprite.make shaderID quadVAO textureID).scale = (100, 100) ∧
    (Sprite.make shaderID quadVAO textureID).rotation = 0 ∧
    (s.SetPosition x y).position = (x, y) ∧
    (s.SetScale w h).scale = (w, h) ∧
    (s.SetRotation d).rotation = d ∧
    (s.SetRotation d).modelMatrix =
      translationMat s.position.1 s.position.2 0 *
        translationMat (0.5 * s.scale.1) (0.5 * s.scale.2) 0 *
        rotationZMat (d * Real.pi / 180) *
        translationMat (-0.5 * s.scale.1) (-0.5 * s.scale.2) 0 *
        scaleMat s.scale.1 s.scale.2 1 := by
  refine ⟨rfl, rfl, rfl, rfl, rfl, rfl, ?_⟩
  simp [Sprite.modelMatrix, Sprite.SetRotation, glmTranslate, glmRotateZ, glmScale,
    glmRadians, Matrix.one_mul, Matrix.mul_assoc]

/-!
## main, CreateShaderProgram and loadTexture (control flow)
-/

/-- Outcome of the three fallible initialisation steps of `main`:
`glfwInit()`, `glfwCreateWindow(...)`, `gladLoadGLLoader(...)`. -/
structure InitEnv where
  glfwInitOk : Bool
  windowCreateOk : Bool
  gladLoadOk : Bool

/-- Exit code and standard-error output of `main` as a function of the
initialisation outcomes, following lines 292-313 and 358-380: each failed
step prints one diagnostic and returns -1; otherwise the render loop runs
and `main` returns 0. -/
def mainResult (env : InitEnv) : Int × List String :=
  if env.glfwInitOk = false then (-1, ["[ERRO] Falha ao inicializar GLFW"])
  else if env.windowCreateOk = false then (-1, ["[ERRO] Falha ao criar janela GLFW"])
  else if env.gladLoadOk = false then (-1, ["[ERRO] Falha ao inicializar GLAD"])
  else (0, [])

/-- C8: `main` returns 0 exactly when all three initialisation steps
succeed, returns -1 on every initialisation failure, never returns any
other code, and prints to standard error exactly when it fails. -/
theorem C8_exit_codes (env : InitEnv) :
    ((mainResult env).1 = 0 ∨ (mainResult env).1 = -1) ∧
    ((mainResult env).1 = 0 ↔
      env.glfwInitOk = true ∧ env.windowCreateOk = true ∧ env.gladLoadOk = true) ∧
    ((mainResult env).2 = [] ↔ (mainResult env).1 = 0) := by
  obtain ⟨a, b, c⟩ := env
  cases a <;> cases b <;> cases c <;> simp [mainResult]

/-- Outcome of the three fallible steps inside `CreateShaderProgram`
(vertex compile, fragment compile, link) together with the program handle
that `glCreateProgram` produced. -/
structure ShaderEnv where
  vertexCompileOk : Bool
  fragmentCompileOk : Bool
  linkOk : Bool
  freshProgram : Nat

/-- `CreateShaderProgram`: each failed step appends one diagnostic to
standard error; the function returns the `glCreateProgram` handle
unconditionally (lines 92-135). -/
def CreateShaderProgram (env : ShaderEnv) : Nat × List String :=
  let errs1 : List String :=
    if env.vertexCompileOk = false then ["[ERRO] Vertex Shader compilation failed"] else []
  let errs2 : List String :=
    if env.fragmentCompileOk = false then ["[ERRO] Fragment Shader compilation failed"] else []
  let errs3 : List String :=
    if env.linkOk = false then ["[ERRO] Shader Program link failed"] else []
  (env.freshProgram, errs1 ++ errs2 ++ errs3)

/-- `loadTexture`: a failed decode prints one diagnostic; the function
returns the `glGenTextures` handle unconditionally (lines 141-172). -/
def loadTexture (decodeOk : Bool) (freshTextureID : Nat) : Nat × List String :=
  (freshTextureID, if decodeOk = false then ["[ERRO] Falha ao carregar textura"] else [])

/-- C9: resource failures are non-fatal. `CreateShaderProgram` returns the
generated program handle for every combination of compile/link outcomes and
`loadTexture` returns the generated texture ID for every decode outcome;
in each case something is printed to standard error exactly when a step
failed. -/
theorem C9_resource_failures_nonfatal (env : ShaderEnv) (decodeOk : Bool) (t : Nat) :
    (CreateShaderProgram env).1 = env.freshProgram ∧
    (loadTexture decodeOk t).1 = t ∧
    ((CreateShaderProgram env).2 = [] ↔
      env.vertexCompileOk = true ∧ env.fragmentCompileOk = true ∧ env.linkOk = true) ∧
    ((loadTexture decodeOk t).2 = [] ↔ decodeOk = true) := by
  obtain ⟨a, b, c, p⟩ := env
  cases a <;> cases b <;> cases c <;> cases decodeOk <;>
    simp [CreateShaderProgram, loadTexture]

/-!
## Sprite::Draw as a state transformer
-/

/-- The global graphics-API binding state touched by `Sprite::Draw`. -/
structure GLState where
  activeProgram : Nat
  activeTextureUnit : Nat
  boundTexture2D : Nat
  boundVAO : Nat
  drawCalls : List (Nat × Mat4 × Mat4)

/-- `Sprite::Draw(projection)` (lines 248-276): computes the model matrix,
binds the shared program / texture / VAO, uploads the two matrix uniforms,
issues one 4-vertex triangle-strip draw, and unbinds the VAO. The method
assigns none of the sprite's own fields, so the resulting sprite is the
receiver unchanged. -/
def Sprite.Draw (s : Sprite) (projection : Mat4) (g : GLState) : Sprite × GLState :=
  (s,
    { g with
      activeProgram := s.shaderID,
      activeTextureUnit := 0,
      boundTexture2D := s.textureID,
      boundVAO := 0,
      drawCalls := g.drawCalls ++ [(s.VAO, s.modelMatrix, projection)] })

/-- C10: `Draw` leaves every sprite field (position, scale, rotation and
the three shared handles) unchanged, and each setter overwrites only its
own field, leaving the other two placement fields and the three handles
unchanged. -/
theorem C10_draw_and_setters_frame (s : Sprite) (projection : Mat4)
    (g : GLState) (x y w h d : ℝ) :
    (s.Draw projection g).1 = s ∧
    (s.SetPosition x y).scale = s.scale ∧
    (s.SetPosition x y).rotation = s.rotation ∧
    (s.SetPosition x y).shaderID = s.shaderID ∧
    (s.SetPosition x y).VAO = s.VAO ∧
    (s.SetPosition x y).textureID = s.textureID ∧
    (s.SetScale w h).position = s.position ∧
    (s.SetScale w h).rotation = s.rotation ∧
    (s.SetScale w h).shaderID = s.shaderID ∧
    (s.SetScale w h).VAO = s.VAO ∧
    (s.SetScale w h).textureID = s.textureID ∧
    (s.SetRotation d).position = s.position ∧
    (s.SetRotation d).scale = s.scale ∧
    (s.SetRotation d).shaderID = s.shaderID ∧
    (s.SetRotation d).VAO = s.VAO ∧
    (s.SetRotation d).textureID = s.textureID :=
  ⟨rfl, rfl, rfl, rfl, rfl, rfl, rfl, rfl, rfl, rfl, rfl, rfl, rfl, rfl, rfl, rfl⟩
